import Mathlib

/-!
Verification of `net/netfilter/xt_FLOWOFFLOAD.c` (flow offload admission,
route/path resolution and per-device hook lifecycle) against its
natural-language specification.

The C code is shallowly embedded: pure control flow becomes Lean functions,
in-place mutation of `struct nf_flow_route` becomes explicit state passing,
external collaborators (routing lookup, neighbour resolution,
`dev_fill_forward_path`, the flow store, allocation) become oracle inputs.
Machine integers that can only hold small enumerations are modelled as `Nat`;
the encapsulation counter is modelled as `Int` (see `TupleIn`).
-/

namespace XtFlowOffload

/-- Direction selector (`enum ip_conntrack_dir`): `false` = ORIGINAL, `true` = REPLY. -/
abbrev Dir := Bool

/-! ## Constants from the kernel headers used by the source file -/

/-- `XT_CONTINUE` (`0xFFFFFFFF`), the pass-through verdict of an x_tables target. -/
def XT_CONTINUE : Nat := 0xFFFFFFFF

/-- `NF_ACCEPT` netfilter verdict. -/
def NF_ACCEPT : Nat := 1

/-- `ETH_P_IP` link-layer protocol value (IPv4). -/
def ETH_P_IP : Nat := 0x0800

/-- `ETH_P_IPV6` link-layer protocol value (IPv6). -/
def ETH_P_IPV6 : Nat := 0x86DD

/-- `NFPROTO_IPV4`. -/
def NFPROTO_IPV4 : Nat := 2

/-- `NFPROTO_IPV6`. -/
def NFPROTO_IPV6 : Nat := 10

/-- `IPPROTO_TCP`. -/
def IPPROTO_TCP : Nat := 6

/-- `IPPROTO_UDP`. -/
def IPPROTO_UDP : Nat := 17

/-- `TCP_CONNTRACK_ESTABLISHED` (conntrack TCP state enumeration value). -/
def TCP_CONNTRACK_ESTABLISHED : Nat := 3

/-- `EAGAIN` errno value; `nf_flow_table_iterate` signals an interrupted
    ("more work remains") walk as `-EAGAIN`. -/
def EAGAIN : Int := 11

/-- Modelled from the spec: `NF_FLOW_TABLE_ENCAP_MAX`, the fixed maximum
    encapsulation depth of the ingress encapsulation stack ("ordered
    encapsulation stack up to a fixed maximum depth").  The declaring header
    (`net/netfilter/nf_flow_table.h`) is outside `src/`; Linux 5.15 defines
    the value as 2. -/
def NF_FLOW_TABLE_ENCAP_MAX : Int := 2

/-- Modelled from the spec: capacity of the fixed-size forwarding-path
    segment array ("fixed-size segment array").  The declaring header
    (`linux/netdevice.h`) is outside `src/`; Linux 5.15 defines
    `NET_DEVICE_PATH_STACK_MAX` as 5. -/
def NET_DEVICE_PATH_STACK_MAX : Nat := 5

/-- `NETDEV_UNREGISTER` notifier event.  The declaring header is outside
    `src/`; the concrete value is immaterial to the model. -/
def NETDEV_UNREGISTER : Nat := 6

/-! ## Devices, destinations, neighbours -/

/-- The slice of `struct net_device` read by this file: the interface index,
    the flags/type/address fields tested by `flow_is_valid_ether_device`,
    and the device MAC (`dev_addr`, abstracted to a `Nat`). -/
structure NetDev where
  ifindex : Nat
  loopback : Bool        -- `dev->flags & IFF_LOOPBACK`
  arphrdEther : Bool     -- `dev->type == ARPHRD_ETHER`
  addrLenEth : Bool      -- `dev->addr_len == ETH_ALEN`
  validEtherAddr : Bool  -- `is_valid_ether_addr(dev->dev_addr)`
  dev_addr : Nat
deriving DecidableEq, Repr

/-- `dev->ifindex` through a possibly–NULL device pointer (the source only
    dereferences it where the pointer is known non-NULL). -/
def optDevIfindex : Option NetDev → Nat
  | none => 0
  | some d => d.ifindex

/-- `dev->dev_addr` through a possibly–NULL device pointer. -/
def optDevAddr : Option NetDev → Nat
  | none => 0
  | some d => d.dev_addr

/-- `flow_is_valid_ether_device`. -/
def flow_is_valid_ether_device : Option NetDev → Bool
  | none => false
  | some dev =>
    !(dev.loopback || !dev.arphrdEther || !dev.addrLenEth || !dev.validEtherAddr)

/-- A routing destination handle (`struct dst_entry`): its device and
    whether `dst_xfrm(dst)` is non-NULL. -/
structure Dst where
  dev : NetDev
  xfrm : Bool
deriving DecidableEq, Repr

/-- Result of the external neighbour lookup consumed by the path resolver:
    whether `nud_state & NUD_VALID`, and the resolved hardware address. -/
structure Neigh where
  nud_valid : Bool
  ha : Nat
deriving DecidableEq, Repr

/-! ## Forwarding-path stack (`struct net_device_path_stack`) -/

/-- Bridge VLAN disposition (`enum net_device_path::bridge::vlan_mode`). -/
inductive BrVlanMode where
  | tag      -- DEV_PATH_BR_VLAN_TAG
  | untag    -- DEV_PATH_BR_VLAN_UNTAG
  | untag_hw -- DEV_PATH_BR_VLAN_UNTAG_HW
  | keep     -- DEV_PATH_BR_VLAN_KEEP
deriving DecidableEq, Repr

/-- Forwarding-path segment kind with the payload fields the walk reads.
    `ethernet` and `dsa` land in the `default` arm of the source's switch. -/
inductive SegType where
  | ethernet
  | vlan (encap_id encap_proto : Nat)
  | pppoe (encap_id encap_proto : Nat) (encap_h_dest : Nat)
  | bridge (vlan_mode : BrVlanMode) (vlan_id vlan_proto : Nat)
  | dsa
deriving DecidableEq, Repr

/-- One `struct net_device_path`. -/
structure Segment where
  type : SegType
  dev : Option NetDev
deriving DecidableEq, Repr

/-- Modelled from the spec: `struct net_device_path_stack` ("an externally
    supplied ordered list of forwarding-path segments"), declared outside
    `src/`.  `path` is total on `Nat`; indices at or beyond the fixed array
    capacity `NET_DEVICE_PATH_STACK_MAX` model whatever memory sits past the
    array, so reads there are expressible (whether such a read is in bounds
    is exactly the `segAccessInBounds` question). -/
structure PathStack where
  num_paths : Nat
  path : Nat → Segment

/-- Index of the sentinel iteration of the walk: the loop in
    `xt_flowoffload_route_check_path` runs `for (i = 0; i <= stack.num_paths; i++)`,
    so the last index it can touch is `num_paths` itself. -/
def sentinelIndex (s : PathStack) : Nat := s.num_paths

/-- An access to `stack.path[i]` is inside the fixed-size segment array iff
    `i` is below the array capacity. -/
def segAccessInBounds (_s : PathStack) (i : Nat) : Prop :=
  i < NET_DEVICE_PATH_STACK_MAX

instance (s : PathStack) (i : Nat) : Decidable (segAccessInBounds s i) := by
  unfold segAccessInBounds; infer_instance

/-! ## `struct nf_flow_route` -/

/-- Transmit classification (`enum flow_offload_xmit_type`). -/
inductive XmitType where
  | unspec  -- zero-initialised value of `route = {}`
  | neigh
  | xfrm
  | direct
deriving DecidableEq, Repr

/-- Modelled from the spec: ingress half of one direction's route tuple
    ("ingress device index, ordered encapsulation stack up to a fixed
    maximum depth, bitmask of VLAN layers stripped by hardware").  The
    declaring header is outside `src/`; the encapsulation counter is
    modelled as a mathematical integer and the encapsulation array and the
    hardware-strip bitmask as total maps indexed by it. -/
structure TupleIn where
  ifindex : Nat
  num_encaps : Int
  encap : Int → Nat × Nat          -- index ↦ (encap id, encap proto)
  ingress_vlans : Int → Bool       -- bit position ↦ set?

/-- Egress half of one direction's route tuple. -/
structure TupleOut where
  ifindex : Nat
  hw_ifindex : Nat
  h_source : Nat
  h_dest : Nat
deriving DecidableEq, Repr

/-- One direction of `struct nf_flow_route`. -/
structure RouteTuple where
  dst : Option Dst
  xmit_type : XmitType
  tin : TupleIn     -- the C field `in` (a Lean keyword)
  out : TupleOut

/-- `struct nf_flow_route`: both directional tuples, indexed by `Dir`. -/
structure NfFlowRoute where
  t : Dir → RouteTuple

/-- The zero-initialised `struct nf_flow_route route = {};` of `flowoffload_tg`. -/
def emptyRoute : NfFlowRoute :=
  ⟨fun _ =>
    { dst := none
      xmit_type := XmitType.unspec
      tin := { ifindex := 0, num_encaps := 0, encap := fun _ => (0, 0),
               ingress_vlans := fun _ => false }
      out := { ifindex := 0, hw_ifindex := 0, h_source := 0, h_dest := 0 } }⟩

/-- Point update of one direction's tuple (in-place mutation in the source). -/
def updTuple (r : NfFlowRoute) (d : Dir) (f : RouteTuple → RouteTuple) : NfFlowRoute :=
  ⟨fun d' => if d' = d then f (r.t d') else r.t d'⟩

@[simp] theorem updTuple_same (r : NfFlowRoute) (d : Dir) (f : RouteTuple → RouteTuple) :
    (updTuple r d f).t d = f (r.t d) := by
  simp [updTuple]

@[simp] theorem updTuple_other (r : NfFlowRoute) (d : Dir) (f : RouteTuple → RouteTuple)
    (d' : Dir) (h : d' ≠ d) : (updTuple r d f).t d' = r.t d' := by
  simp [updTuple, h]

theorem updTuple_t (r : NfFlowRoute) (d : Dir) (f : RouteTuple → RouteTuple) (d' : Dir) :
    (updTuple r d f).t d' = if d' = d then f (r.t d') else r.t d' := rfl

/-- Ingress encapsulation count of direction `d`. -/
def numEncaps (r : NfFlowRoute) (d : Dir) : Int := (r.t d).tin.num_encaps

/-- Point update of the encapsulation array. -/
def updEncap (f : Int → Nat × Nat) (k : Int) (v : Nat × Nat) : Int → Nat × Nat :=
  fun j => if j = k then v else f j

/-- `ingress_vlans |= BIT(k)`. -/
def setVlanBit (f : Int → Bool) (k : Int) : Int → Bool :=
  fun j => if j = k then true else f j

/-! ## The forwarding-path walk of `xt_flowoffload_route_check_path` -/

/-- The `flow_is_valid_ether_device(dev)` block at the top of the loop body:
    on the first valid Ethernet segment, capture egress source MAC and egress
    device index and switch the direction's transmit classification to
    direct. -/
def pathStepEther (dir : Dir) (dev : Option NetDev) (r : NfFlowRoute) : NfFlowRoute :=
  if flow_is_valid_ether_device dev then
    let r :=
      if (r.t dir).xmit_type ≠ XmitType.direct then
        updTuple r dir (fun t =>
          { t with out := { t.out with h_source := optDevAddr dev,
                                       ifindex := optDevIfindex dev } })
      else r
    updTuple r dir (fun t => { t with xmit_type := XmitType.direct })
  else r

/-- One iteration of the walk's loop body, for index `i`.  Returns the
    updated route, the loop's current-device variable (`dev = path->dev`,
    assigned at the top of every iteration) and the `last` flag.  The local
    `prev_type` of the source is assigned once and never read, so it is
    omitted. -/
def pathStep (s : PathStack) (dir : Dir) (i : Nat) (r : NfFlowRoute)
    (_dev : Option NetDev) : NfFlowRoute × Option NetDev × Bool :=
  let path := s.path i
  let n_encaps := numEncaps r (!dir)
  let dev := path.dev
  let r := pathStepEther dir dev r
  match path.type with
  | SegType.pppoe encap_id encap_proto encap_h_dest =>
    if NF_FLOW_TABLE_ENCAP_MAX ≤ n_encaps ∨ i = s.num_paths then (r, dev, true)
    else
      let r := updTuple r (!dir) (fun t =>
        { t with tin := { t.tin with num_encaps := t.tin.num_encaps + 1,
                                     encap := updEncap t.tin.encap n_encaps
                                                (encap_id, encap_proto) } })
      let r := updTuple r dir (fun t =>
        { t with out := { t.out with h_dest := encap_h_dest } })
      (r, dev, false)
  | SegType.vlan encap_id encap_proto =>
    if NF_FLOW_TABLE_ENCAP_MAX ≤ n_encaps ∨ i = s.num_paths then (r, dev, true)
    else
      let r := updTuple r (!dir) (fun t =>
        { t with tin := { t.tin with num_encaps := t.tin.num_encaps + 1,
                                     encap := updEncap t.tin.encap n_encaps
                                                (encap_id, encap_proto) } })
      (r, dev, false)
  | SegType.bridge vlan_mode vlan_id vlan_proto =>
    match vlan_mode with
    | BrVlanMode.tag =>
      if NF_FLOW_TABLE_ENCAP_MAX ≤ n_encaps ∨ i = s.num_paths then (r, dev, true)
      else
        let r := updTuple r (!dir) (fun t =>
          { t with tin := { t.tin with num_encaps := t.tin.num_encaps + 1,
                                       encap := updEncap t.tin.encap n_encaps
                                                  (vlan_id, vlan_proto) } })
        (r, dev, false)
    | BrVlanMode.untag =>
      (updTuple r (!dir) (fun t =>
        { t with tin := { t.tin with num_encaps := t.tin.num_encaps - 1 } }), dev, false)
    | BrVlanMode.untag_hw =>
      (updTuple r (!dir) (fun t =>
        { t with tin :=
            { t.tin with ingress_vlans := setVlanBit t.tin.ingress_vlans (n_encaps - 1) } }),
       dev, false)
    | BrVlanMode.keep => (r, dev, false)
  | _ => (r, dev, true)   -- DEV_PATH_ETHERNET and every other type: default arm

/-- The walk `for (i = 0; i <= stack.num_paths; i++) { ... if (last) break; }`,
    expressed as a fold over the index list (`List.range (num_paths + 1)`
    when called from `xt_flowoffload_route_check_path`).  The third result
    component is a ghost trace of the indices whose segment the loop body
    actually read, used only to state theorems about the walk's bounds; it
    does not influence the computed route or device. -/
def walkSegs (s : PathStack) (dir : Dir) :
    List Nat → NfFlowRoute → Option NetDev → NfFlowRoute × Option NetDev × List Nat
  | [], r, dev => (r, dev, [])
  | i :: rest, r, dev =>
    let st := pathStep s dir i r dev
    if st.2.2 then (st.1, st.2.1, [i])
    else
      let w := walkSegs s dir rest st.1 st.2.1
      (w.1, w.2.1, i :: w.2.2)

/-- The external collaborators consumed by `xt_flowoffload_route_check_path`
    for one direction: the neighbour lookup (`dst_neigh_lookup`, read of
    `nud_state` and `ha`) and the forwarding-path query
    (`dev_fill_forward_path`; `none` models a non-zero return). -/
structure CheckPathEnv where
  neigh : Option Neigh
  fill : Option PathStack

/-- `xt_flowoffload_route_check_path`.  `out_dev` is the value behind the
    `struct net_device **out_dev` argument on entry; the returned second
    component is its value on exit (it is only overwritten on the path that
    completes the walk).  The connection record argument of the source only
    feeds the external neighbour lookup, which the environment replaces. -/
def xt_flowoffload_route_check_path (env : CheckPathEnv) (r : NfFlowRoute)
    (dir : Dir) (out_dev : Option NetDev) : NfFlowRoute × Option NetDev :=
  let dst := (r.t dir).dst
  -- `dev = dst->dev`; the caller guarantees `dst` is non-NULL.
  let dev : Option NetDev := dst.map Dst.dev
  let r := updTuple r (!dir) (fun t =>
    { t with tin := { t.tin with ifindex := optDevIfindex dev } })
  let r := updTuple r dir (fun t =>
    { t with out := { t.out with ifindex := optDevIfindex dev } })
  if (r.t dir).xmit_type = XmitType.xfrm then (r, out_dev)
  else if ¬ flow_is_valid_ether_device dev then
    -- the source inlines the identical loopback/type/addr_len/valid-address
    -- test on `dev` (never NULL here)
    (r, out_dev)
  else
    match env.neigh with
    | none => (r, out_dev)
    | some n =>
      -- `memcpy(route->tuple[dir].out.h_dest, n->ha, ETH_ALEN)` happens
      -- before the NUD_VALID test
      let r := updTuple r dir (fun t =>
        { t with out := { t.out with h_dest := n.ha } })
      if ¬ n.nud_valid then (r, out_dev)
      else
        match env.fill with
        | none => (r, out_dev)
        | some stack =>
          if stack.num_paths = 0 then (r, out_dev)
          else
            let w := walkSegs stack dir (List.range (stack.num_paths + 1)) r dev
            let r := w.1
            let devF := w.2.1
            let r := updTuple r dir (fun t =>
              { t with out := { t.out with hw_ifindex := optDevIfindex devF } })
            let r := updTuple r (!dir) (fun t =>
              { t with tin := { t.tin with ifindex := optDevIfindex devF } })
            (r, devF)

/-! ## Route resolution (`xt_flowoffload_route_dir`, `xt_flowoffload_route`) -/

/-- `xt_flowoffload_route_dir`.  The `flowi` construction and the `nf_route`
    call are external; `res` is the destination the routing collaborator
    yields (`none` models `!dst`, i.e. `-ENOENT`).  On success the tuple's
    `dst` is stored and the transmit classification is set from
    `dst_xfrm(dst)`. -/
def xt_flowoffload_route_dir (res : Option Dst) (r : NfFlowRoute) (dir : Dir) :
    Option NfFlowRoute :=
  match res with
  | none => none
  | some dst =>
    some (updTuple r dir (fun t =>
      { t with dst := some dst,
               xmit_type := if dst.xfrm then XmitType.xfrm else XmitType.neigh }))

/-- `xt_flowoffload_route`.  Mirrors the in-place mutation of the caller's
    `route`: even on failure the (partially filled) route is returned, which
    is what the caller's error path then sees.  The boolean result is
    `true` for 0 and `false` for a negative return.  `devs` is the caller's
    `struct net_device *devs[2]`, updated through the `out_dev` pointers of
    the two `xt_flowoffload_route_check_path` calls. -/
def xt_flowoffload_route (nfRoute : Dir → Option Dst) (envs : Dir → CheckPathEnv)
    (r : NfFlowRoute) (dir : Dir) (devs : Dir → Option NetDev) :
    NfFlowRoute × (Dir → Option NetDev) × Bool :=
  match xt_flowoffload_route_dir (nfRoute dir) r dir with
  | none => (r, devs, false)
  | some r1 =>
    match xt_flowoffload_route_dir (nfRoute (!dir)) r1 (!dir) with
    | none => (r1, devs, false)
    | some r2 =>
      let p1 := xt_flowoffload_route_check_path (envs dir) r2 dir (devs (!dir))
      let devsA : Dir → Option NetDev := fun d => if d = (!dir) then p1.2 else devs d
      let p2 := xt_flowoffload_route_check_path (envs (!dir)) p1.1 (!dir) (devsA dir)
      let devsB : Dir → Option NetDev := fun d => if d = dir then p2.2 else devsA d
      (p2.1, devsB, true)

/-! ## The admission operation (`flowoffload_tg`) -/

/-- TCP header flags read through `skb_header_pointer`. -/
structure TcpFlags where
  fin : Bool
  rst : Bool
deriving DecidableEq, Repr

/-- The slice of the conntrack entry (`struct nf_conn`) read and written by
    `flowoffload_tg`: protocol, TCP state, the status bits it tests or flips,
    extension presence, confirmation, and the two per-direction
    `IP_CT_TCP_FLAG_BE_LIBERAL` flags it may set. -/
structure CtState where
  protonum : Nat
  tcpState : Nat
  offloadBit : Bool   -- IPS_OFFLOAD_BIT of ct->status
  seqAdjust : Bool    -- ct->status & IPS_SEQ_ADJUST
  helperExt : Bool    -- nf_ct_ext_exist(ct, NF_CT_EXT_HELPER)
  confirmed : Bool    -- nf_ct_is_confirmed(ct)
  beLiberal0 : Bool   -- ct->proto.tcp.seen[0].flags & IP_CT_TCP_FLAG_BE_LIBERAL
  beLiberal1 : Bool
deriving DecidableEq, Repr

/-- Everything `flowoffload_tg` reads: packet metadata, the conntrack entry,
    the devices of `par`, the target's hardware flag, and oracles for every
    external call whose outcome steers the control flow (routing lookups per
    direction, the per-direction path-resolver environments, and the three
    fallible flow-store operations). -/
structure TgInput where
  secPath : Bool                  -- skb_sec_path(skb)
  family : Nat                    -- xt_family(par)
  ipOptLen : Nat                  -- IPCB(skb)->opt.optlen
  ct : Option CtState             -- nf_ct_get(skb, &ctinfo)
  ctinfoDir : Dir                 -- CTINFO2DIR(ctinfo)
  tcph : Option TcpFlags          -- skb_header_pointer(...) (none = NULL)
  xtOut : Option NetDev           -- xt_out(par)
  xtIn : Option NetDev            -- xt_in(par)
  hwFlag : Bool                   -- info->flags & XT_FLOWOFFLOAD_HW
  nfRoute : Dir → Option Dst      -- nf_route outcome per direction
  pathEnv : Dir → CheckPathEnv
  flowAllocOk : Bool              -- flow_offload_alloc(ct) != NULL
  routeInitOk : Bool              -- flow_offload_route_init(flow, &route) == 0
  flowAddOk : Bool                -- flow_offload_add(&table->ft, flow) == 0

/-- Observable outcome of one `flowoffload_tg` invocation: the verdict, the
    final conntrack state, which directions hold an acquired routing
    destination reference at return, how many times each direction's
    reference was released, the allocation/free/insertion facts about the
    flow entry, whether the hardware table was selected, and the devices
    passed to `xt_flowoffload_check_device` (in call order). -/
structure TgResult where
  verdict : Nat
  ct : Option CtState
  dstAcquired0 : Bool
  dstAcquired1 : Bool
  dstReleased0 : Nat
  dstReleased1 : Nat
  flowAllocated : Bool
  flowFreed : Bool
  flowInserted : Bool
  checkDeviceCalls : List (Option NetDev)

/-- `xt_flowoffload_skip`. -/
def xt_flowoffload_skip (secPath : Bool) (family : Nat) (ipOptLen : Nat) : Bool :=
  if secPath then true
  else if family = NFPROTO_IPV4 then decide (ipOptLen ≠ 0)
  else false

/-- Whether direction `d`'s tuple holds an acquired destination reference. -/
def dstAcq (r : NfFlowRoute) (d : Dir) : Bool := ((r.t d).dst).isSome

/-- Effect of one `dst_release(route.tuple[d].dst)`: a release happens iff
    the pointer is non-NULL (`dst_release` ignores NULL). -/
def relOf (r : NfFlowRoute) (d : Dir) : Nat := if ((r.t d).dst).isSome then 1 else 0

/-- Result of every pass-through return taken before the offload-in-progress
    bit is touched: verdict `XT_CONTINUE`, nothing else happens. -/
def tgPass (inp : TgInput) : TgResult :=
  { verdict := XT_CONTINUE, ct := inp.ct,
    dstAcquired0 := false, dstAcquired1 := false,
    dstReleased0 := 0, dstReleased1 := 0,
    flowAllocated := false, flowFreed := false, flowInserted := false,
    checkDeviceCalls := [] }

/-- The `err_flow_route` label: only `clear_bit(IPS_OFFLOAD_BIT)` runs; the
    two `dst_release` calls are above the label and are skipped. -/
def errFlowRoute (ct1 : CtState) (route : NfFlowRoute) : TgResult :=
  { verdict := XT_CONTINUE, ct := some { ct1 with offloadBit := false },
    dstAcquired0 := dstAcq route false, dstAcquired1 := dstAcq route true,
    dstReleased0 := 0, dstReleased1 := 0,
    flowAllocated := false, flowFreed := false, flowInserted := false,
    checkDeviceCalls := [] }

/-- The `err_flow_alloc` label: both destinations released, bit cleared. -/
def errFlowAlloc (ct1 : CtState) (route : NfFlowRoute) : TgResult :=
  { verdict := XT_CONTINUE, ct := some { ct1 with offloadBit := false },
    dstAcquired0 := dstAcq route false, dstAcquired1 := dstAcq route true,
    dstReleased0 := relOf route false, dstReleased1 := relOf route true,
    flowAllocated := false, flowFreed := false, flowInserted := false,
    checkDeviceCalls := [] }

/-- The `err_flow_add` label: the flow entry is freed, both destinations
    released, bit cleared.  `ct'` is the conntrack state on arrival (the
    liberal-ACK flags are already set when `flow_offload_add` fails). -/
def errFlowAdd (ct' : CtState) (route : NfFlowRoute) : TgResult :=
  { verdict := XT_CONTINUE, ct := some { ct' with offloadBit := false },
    dstAcquired0 := dstAcq route false, dstAcquired1 := dstAcq route true,
    dstReleased0 := relOf route false, dstReleased1 := relOf route true,
    flowAllocated := true, flowFreed := true, flowInserted := false,
    checkDeviceCalls := [] }

/-- The successful tail of `flowoffload_tg`: flow inserted, hooks ensured
    for `devs[0]` and `devs[1]`, both destinations released, the
    offload-in-progress bit stays set. -/
def tgSuccess (ct2 : CtState) (route : NfFlowRoute) (devs : Dir → Option NetDev) :
    TgResult :=
  { verdict := XT_CONTINUE, ct := some ct2,
    dstAcquired0 := dstAcq route false, dstAcquired1 := dstAcq route true,
    dstReleased0 := relOf route false, dstReleased1 := relOf route true,
    flowAllocated := true, flowFreed := false, flowInserted := true,
    checkDeviceCalls := [devs false, devs true] }

/-- Tail of `flowoffload_tg` after the protocol gate: helper/seq-adjust and
    confirmation gates, device lookup, the atomic test-and-set of the
    offload-in-progress bit, route resolution, flow construction and
    insertion, and the error labels. -/
def flowoffload_tg_main (inp : TgInput) (ct : CtState) (tcph : Option TcpFlags) :
    TgResult :=
  if ct.helperExt || ct.seqAdjust then tgPass inp
  else if ¬ ct.confirmed then tgPass inp
  else
    let dir := inp.ctinfoDir
    let devs : Dir → Option NetDev := fun d => if d = dir then inp.xtOut else inp.xtIn
    if (devs dir).isNone || (devs (!dir)).isNone then tgPass inp
    else if ct.offloadBit then tgPass inp   -- test_and_set_bit saw the bit set
    else
      let ct1 : CtState := { ct with offloadBit := true }
      let rr := xt_flowoffload_route inp.nfRoute inp.pathEnv emptyRoute dir devs
      let route := rr.1
      let devs2 := rr.2.1
      if rr.2.2 = false then errFlowRoute ct1 route
      else if ¬ inp.flowAllocOk then errFlowAlloc ct1 route
      else if ¬ inp.routeInitOk then errFlowAdd ct1 route
      else
        let ct2 := match tcph with
          | some _ => { ct1 with beLiberal0 := true, beLiberal1 := true }
          | none => ct1
        if ¬ inp.flowAddOk then errFlowAdd ct2 route
        else tgSuccess ct2 route devs2

/-- `flowoffload_tg`: the admission operation.  The early gates mirror the
    source: security-path/IP-options skip, conntrack presence, the protocol
    switch (TCP must be in established state with a readable header carrying
    neither FIN nor RST; UDP passes; everything else skips). -/
def flowoffload_tg (inp : TgInput) : TgResult :=
  if xt_flowoffload_skip inp.secPath inp.family inp.ipOptLen then tgPass inp
  else
    match inp.ct with
    | none => tgPass inp
    | some ct =>
      if ct.protonum = IPPROTO_TCP then
        if ct.tcpState ≠ TCP_CONNTRACK_ESTABLISHED then tgPass inp
        else
          match inp.tcph with
          | none => tgPass inp
          | some t =>
            if t.fin || t.rst then tgPass inp
            else flowoffload_tg_main inp ct (some t)
      else if ct.protonum = IPPROTO_UDP then flowoffload_tg_main inp ct none
      else tgPass inp

/-! ## Hook registry and periodic sweeper -/

/-- One `struct xt_flowoffload_hook`.  Device identity is its interface
    index (`ops.dev`; the sweeper compares `ops.dev->ifindex` against flow
    tuples, and lookups compare the device handle itself — one `Nat`
    identity serves both in the model).  The captured namespace is not
    modelled; no claim depends on it. -/
structure XtHook where
  dev : Nat
  registered : Bool
  used : Bool
deriving DecidableEq, Repr

/-- `flow_offload_lookup_hook`: linear scan for the first hook of `dev`. -/
def flow_offload_lookup_hook (hooks : List XtHook) (dev : Nat) : Option XtHook :=
  hooks.find? (fun h => h.dev = dev)

/-- `xt_flowoffload_create_hook`: `kzalloc` a pending hook (zeroed flags),
    `hlist_add_head` it, and schedule the sweep task immediately
    (`mod_delayed_work(..., 0)`).  `allocOk = false` models `kzalloc`
    failure (`-ENOMEM`, silently ignored by the caller).  The boolean
    result records whether the sweep task was scheduled. -/
def xt_flowoffload_create_hook (hooks : List XtHook) (dev : Nat) (allocOk : Bool) :
    List XtHook × Bool :=
  if allocOk then (⟨dev, false, false⟩ :: hooks, true) else (hooks, false)

/-- `hook->used = true` on the hook `flow_offload_lookup_hook` returned,
    i.e. the first hook of `dev`. -/
def markUsedFirst : List XtHook → Nat → List XtHook
  | [], _ => []
  | h :: t, dev => if h.dev = dev then { h with used := true } :: t else h :: markUsedFirst t dev

/-- `xt_flowoffload_check_device` (ensure-hook).  The boolean result records
    whether the sweep task was scheduled. -/
def xt_flowoffload_check_device (hooks : List XtHook) (dev : Option Nat)
    (allocOk : Bool) : List XtHook × Bool :=
  match dev with
  | none => (hooks, false)
  | some d =>
    match flow_offload_lookup_hook hooks d with
    | some _ => (markUsedFirst hooks d, false)
    | none => xt_flowoffload_create_hook hooks d allocOk

/-- `xt_flowoffload_register_hooks` (the sweep's register phase): every
    not-yet-registered hook becomes registered; the interception-point
    registration and hardware bind are external side effects. -/
def xt_flowoffload_register_hooks (hooks : List XtHook) : List XtHook :=
  hooks.map (fun h => { h with registered := true })

/-- One flow entry as seen by the sweeper: the recorded ingress interface
    indices of its two direction tuples. -/
structure Flow where
  iifidx0 : Nat
  iifidx1 : Nat
deriving DecidableEq, Repr

/-- `xt_flowoffload_check_hook`: mark used every hook whose device matches
    either direction's ingress index of the flow. -/
def xt_flowoffload_check_hook (f : Flow) (hooks : List XtHook) : List XtHook :=
  hooks.map (fun h =>
    if h.dev = f.iifidx0 ∨ h.dev = f.iifidx1 then { h with used := true } else h)

/-- `xt_flowoffload_cleanup_hooks` (the reap phase): every hook that is
    registered and unused is removed (and externally unregistered/freed);
    every hook that is used or still pending is kept and counted active.
    Net effect of the restart-scan loop. -/
def xt_flowoffload_cleanup_hooks (hooks : List XtHook) : List XtHook × Bool :=
  (hooks.filter (fun h => h.used || !h.registered),
   hooks.any (fun h => h.used || !h.registered))

/-- Phases 1–3 of one sweep cycle: register pending hooks, clear every
    `used` flag, then let the flow-store iteration mark hooks used via
    `xt_flowoffload_check_hook` for each flow entry the iteration visited. -/
def sweepMarked (hooks : List XtHook) (flows : List Flow) : List XtHook :=
  let hooks := xt_flowoffload_register_hooks hooks
  let hooks := hooks.map (fun h => { h with used := false })
  flows.foldl (fun hs f => xt_flowoffload_check_hook f hs) hooks

/-- `xt_flowoffload_hook_work`: one sweep cycle.  `flows` are the flow
    entries the external `nf_flow_table_iterate` visited and `err` its
    return value.  Result: the hook collection afterwards and whether the
    task rescheduled itself (`queue_delayed_work(..., HZ)`): a non-zero,
    non-`-EAGAIN` error skips the reap phase and reschedules; otherwise the
    cycle reschedules iff the reap phase reports an active hook. -/
def xt_flowoffload_hook_work (hooks : List XtHook) (flows : List Flow) (err : Int) :
    List XtHook × Bool :=
  let marked := sweepMarked hooks flows
  if err ≠ 0 ∧ err ≠ -EAGAIN then (marked, true)
  else
    let c := xt_flowoffload_cleanup_hooks marked
    (c.1, c.2)

/-! ## Device lifecycle observer (`flow_offload_netdev_event`) -/

/-- `hlist_del` of the hook `flow_offload_lookup_hook` found: remove the
    first hook of `dev`. -/
def removeFirstDev : List XtHook → Nat → List XtHook
  | [], _ => []
  | h :: t, dev => if h.dev = dev then t else h :: removeFirstDev t dev

/-- Outcome of one netdev notifier invocation: both tables' hook collections,
    the hooks that were unregistered and freed (in order), and the device
    whose flow-table entries were asked to be cleaned up
    (`nf_flow_table_cleanup`), if any. -/
structure NetdevEventResult where
  table0 : List XtHook
  table1 : List XtHook
  unregistered : List XtHook
  cleanupDev : Option Nat
deriving DecidableEq, Repr

/-- `flow_offload_netdev_event`: on `NETDEV_UNREGISTER`, remove the hook of
    `dev` from both tables under the lock, then unregister and free each
    removed hook, then request flow-table cleanup for the device.  Any other
    event returns `NOTIFY_DONE` untouched. -/
def flow_offload_netdev_event (table0 table1 : List XtHook) (event : Nat) (dev : Nat) :
    NetdevEventResult :=
  if event ≠ NETDEV_UNREGISTER then ⟨table0, table1, [], none⟩
  else
    let hook0 := flow_offload_lookup_hook table0 dev
    let t0 := match hook0 with
      | some _ => removeFirstDev table0 dev
      | none => table0
    let hook1 := flow_offload_lookup_hook table1 dev
    let t1 := match hook1 with
      | some _ => removeFirstDev table1 dev
      | none => table1
    ⟨t0, t1, hook0.toList ++ hook1.toList, some dev⟩

/-! ## Per-device ingress interception hook (`xt_flowoffload_net_hook`) -/

/-- `xt_flowoffload_net_hook`.  `nelems` is the flow store's element count
    (`atomic_read(&ft->rhashtable.nelems)`); `ipHookRes` and `ipv6HookRes`
    are the verdicts of the external fast-path processing functions
    (`nf_flow_offload_ip_hook` / `nf_flow_offload_ipv6_hook`). -/
def xt_flowoffload_net_hook (nelems : Nat) (protocol : Nat)
    (ipHookRes ipv6HookRes : Nat) : Nat :=
  if nelems = 0 then NF_ACCEPT
  else if protocol = ETH_P_IP then ipHookRes
  else if protocol = ETH_P_IPV6 then ipv6HookRes
  else NF_ACCEPT

/-! ## Shared helper lemmas -/

theorem bool_not_ne (b : Bool) : (!b) ≠ b := by cases b <;> decide

/-! ## Claim C10 -/

/-- C10: the per-device ingress interception hook returns the accept verdict
    whenever the table's flow store is empty or the packet's link-layer
    protocol is neither IPv4 nor IPv6; only IPv4/IPv6 packets with a
    non-empty flow store are handed to the fast-path processing functions
    (whose verdicts it then returns unchanged). -/
theorem net_hook_accept_or_dispatch (nelems protocol ipRes ipv6Res m : Nat)
    (h : nelems = 0 ∨ (protocol ≠ ETH_P_IP ∧ protocol ≠ ETH_P_IPV6))
    (hm : m ≠ 0) :
    xt_flowoffload_net_hook nelems protocol ipRes ipv6Res = NF_ACCEPT ∧
    xt_flowoffload_net_hook m ETH_P_IP ipRes ipv6Res = ipRes ∧
    xt_flowoffload_net_hook m ETH_P_IPV6 ipRes ipv6Res = ipv6Res := by
  refine ⟨?_, ?_, ?_⟩
  · rcases h with h | ⟨h1, h2⟩
    · simp [xt_flowoffload_net_hook, h]
    · by_cases hz : nelems = 0 <;> simp [xt_flowoffload_net_hook, hz, h1, h2]
  · simp [xt_flowoffload_net_hook, hm]
  · have : ETH_P_IPV6 ≠ ETH_P_IP := by decide
    simp [xt_flowoffload_net_hook, hm, this]

/-- Witness for C10 at concrete inputs. -/
theorem net_hook_accept_or_dispatch_witness :
    xt_flowoffload_net_hook 0 ETH_P_IP 7 8 = NF_ACCEPT ∧
    xt_flowoffload_net_hook 3 ETH_P_IP 7 8 = 7 ∧
    xt_flowoffload_net_hook 3 ETH_P_IPV6 7 8 = 8 :=
  net_hook_accept_or_dispatch 0 ETH_P_IP 7 8 3 (Or.inl rfl) (by decide)

/-! ## Claim C3 -/

set_option maxHeartbeats 1600000 in
/-- C3: for every input packet and connection state, the admission operation
    returns the pass-through verdict `XT_CONTINUE` — on success, on every
    failure branch and on every ineligibility skip.  (That the packet itself
    is never modified or dropped is structural in the embedding: the source
    never writes to the skb, and the model's result carries no packet
    component at all.) -/
theorem flowoffload_tg_always_continue (inp : TgInput) :
    (flowoffload_tg inp).verdict = XT_CONTINUE := by
  have hmain : ∀ ct tcph, (flowoffload_tg_main inp ct tcph).verdict = XT_CONTINUE := by
    intro ct tcph
    simp only [flowoffload_tg_main]
    split_ifs <;> rfl
  cases hct : inp.ct with
  | none => simp only [flowoffload_tg, hct]; split_ifs <;> rfl
  | some ct =>
    cases htc : inp.tcph with
    | none =>
      simp only [flowoffload_tg, hct, htc]
      split_ifs <;> first | rfl | apply hmain
    | some t =>
      simp only [flowoffload_tg, hct, htc]
      split_ifs <;> first | rfl | apply hmain

/-! ## Claim C1 -/

/-- A conntrack state that passes every admission gate. -/
def ctEligible : CtState :=
  { protonum := IPPROTO_TCP, tcpState := TCP_CONNTRACK_ESTABLISHED,
    offloadBit := false, seqAdjust := false, helperExt := false,
    confirmed := true, beLiberal0 := false, beLiberal1 := false }

/-- A plain valid Ethernet device with interface index `i`. -/
def ethDev (i : Nat) : NetDev :=
  { ifindex := i, loopback := false, arphrdEther := true, addrLenEth := true,
    validEtherAddr := true, dev_addr := 100 + i }

/-- The failing input for C1: a fully eligible TCP-established packet for
    which the routing lookup succeeds for the packet's direction and fails
    for the reverse direction. -/
def leakInput : TgInput :=
  { secPath := false, family := NFPROTO_IPV4, ipOptLen := 0,
    ct := some ctEligible, ctinfoDir := false,
    tcph := some { fin := false, rst := false },
    xtOut := some (ethDev 1), xtIn := some (ethDev 2), hwFlag := false,
    nfRoute := fun d => if d then none else some { dev := ethDev 1, xfrm := false },
    pathEnv := fun _ => { neigh := none, fill := none },
    flowAllocOk := true, routeInitOk := true, flowAddOk := true }

/-- C1 is a code bug: on the path where the forward routing lookup succeeds
    and the reverse one fails, `flowoffload_tg` jumps to `err_flow_route`,
    which sits below both `dst_release` calls — the forward destination
    reference is still held at return (acquired, zero releases): it leaks,
    contradicting the spec's "released exactly once regardless of path
    taken".  The rest of the unwinding contract does hold on this path: the
    verdict is pass-through and the offload-in-progress bit is cleared,
    leaving the conntrack state as it was. -/
theorem flowoffload_tg_dst_leak_on_reverse_route_failure :
    (flowoffload_tg leakInput).dstAcquired0 = true ∧
    (flowoffload_tg leakInput).dstReleased0 = 0 ∧
    (flowoffload_tg leakInput).dstReleased1 = 0 ∧
    (flowoffload_tg leakInput).verdict = XT_CONTINUE ∧
    (flowoffload_tg leakInput).ct = some ctEligible := by
  decide

/-! ## Claim C2 -/

/-- The eligibility gates of `flowoffload_tg` that run before the
    offload-in-progress bit is touched, as a failure predicate: the
    skip test, conntrack presence, the protocol gate (TCP in established
    state with a readable header carrying neither FIN nor RST, or UDP),
    helper/sequence-adjust absence, confirmation, and both devices known. -/
def ineligiblePre (inp : TgInput) : Bool :=
  xt_flowoffload_skip inp.secPath inp.family inp.ipOptLen ||
  (match inp.ct with
   | none => true
   | some ct =>
     (!((ct.protonum = IPPROTO_TCP && ct.tcpState = TCP_CONNTRACK_ESTABLISHED &&
         (match inp.tcph with
          | some t => !t.fin && !t.rst
          | none => false)) ||
        (ct.protonum = IPPROTO_UDP)) ||
      ct.helperExt || ct.seqAdjust || !ct.confirmed ||
      inp.xtOut.isNone || inp.xtIn.isNone))

/-- Any failure of the gates checked after the protocol switch but before
    the bit is set yields pass-through. -/
theorem flowoffload_tg_main_pass (inp : TgInput) (ct : CtState) (tcph : Option TcpFlags)
    (h : ct.helperExt = true ∨ ct.seqAdjust = true ∨ ct.confirmed = false ∨
         inp.xtOut = none ∨ inp.xtIn = none) :
    flowoffload_tg_main inp ct tcph = tgPass inp := by
  simp only [flowoffload_tg_main]
  cases hdir : inp.ctinfoDir <;>
    rcases h with h | h | h | h | h <;>
      by_cases h1 : ct.helperExt <;> by_cases h2 : ct.seqAdjust <;>
        by_cases h3 : ct.confirmed <;> simp_all

/-- C2: a packet whose connection fails any eligibility gate checked before
    the offload-in-progress bit is set — in particular any connection that
    is neither TCP in established state (without FIN/RST in the packet) nor
    UDP — gets pass-through with zero side effects: the bit is not set, no
    flow entry is allocated or inserted, no hook-ensure call is made, no
    destination reference is acquired or released, and the conntrack state
    is untouched. -/
theorem flowoffload_tg_ineligible_no_side_effects (inp : TgInput)
    (h : ineligiblePre inp = true) :
    flowoffload_tg inp = tgPass inp ∧
    (flowoffload_tg inp).ct = inp.ct ∧
    (flowoffload_tg inp).flowAllocated = false ∧
    (flowoffload_tg inp).flowInserted = false ∧
    (flowoffload_tg inp).checkDeviceCalls = [] ∧
    (flowoffload_tg inp).dstAcquired0 = false ∧
    (flowoffload_tg inp).dstAcquired1 = false ∧
    (flowoffload_tg inp).dstReleased0 = 0 ∧
    (flowoffload_tg inp).dstReleased1 = 0 := by
  have hmain : flowoffload_tg inp = tgPass inp := by
    by_cases hskip : xt_flowoffload_skip inp.secPath inp.family inp.ipOptLen = true
    · simp [flowoffload_tg, hskip]
    · cases hct : inp.ct with
      | none => simp [flowoffload_tg, hskip, hct]
      | some ct =>
        simp only [ineligiblePre, hct, Bool.or_eq_true, Bool.not_eq_true,
          Option.isNone_iff_eq_none, Bool.and_eq_true, decide_eq_true_eq] at h
        rcases h with h | h
        · exact absurd h hskip
        · simp only [flowoffload_tg, hskip, if_false, hct, Bool.not_eq_true]
          by_cases hp : ct.protonum = IPPROTO_TCP
          · by_cases hs : ct.tcpState = TCP_CONNTRACK_ESTABLISHED
            · cases htc : inp.tcph with
              | none => simp [hp, hs, htc]
              | some t =>
                by_cases hfin : t.fin
                · simp [hp, hs, htc, hfin]
                · by_cases hrst : t.rst
                  · simp [hp, hs, htc, hfin, hrst]
                  · have hrest : ct.helperExt = true ∨ ct.seqAdjust = true ∨
                        ct.confirmed = false ∨ inp.xtOut = none ∨ inp.xtIn = none := by
                      simp only [htc, hp, hs, hfin, hrst, Bool.not_eq_true'] at h
                      tauto
                    simp only [hp, hs, htc, hfin, hrst, if_true, Bool.or_self, if_false,
                      reduceIte]
                    simpa using flowoffload_tg_main_pass inp ct (some t) hrest
            · simp [hp, hs]
          · by_cases hu : ct.protonum = IPPROTO_UDP
            · have hrest : ct.helperExt = true ∨ ct.seqAdjust = true ∨
                  ct.confirmed = false ∨ inp.xtOut = none ∨ inp.xtIn = none := by
                simp only [hu, Bool.not_eq_true'] at h
                tauto
              simp only [hp, hu, if_false, if_true, reduceIte]
              simpa using flowoffload_tg_main_pass inp ct none hrest
            · simp [hp, hu]
  rw [hmain]
  exact ⟨rfl, rfl, rfl, rfl, rfl, rfl, rfl, rfl, rfl⟩

/-- An ICMP-carrying input (protocol neither TCP nor UDP), otherwise fully
    populated: the C2 witness input. -/
def icmpInput : TgInput :=
  { secPath := false, family := NFPROTO_IPV4, ipOptLen := 0,
    ct := some { ctEligible with protonum := 1 }, ctinfoDir := false,
    tcph := none, xtOut := some (ethDev 1), xtIn := some (ethDev 2), hwFlag := false,
    nfRoute := fun _ => none, pathEnv := fun _ => { neigh := none, fill := none },
    flowAllocOk := true, routeInitOk := true, flowAddOk := true }

/-- Witness for C2 at a concrete ICMP input. -/
theorem flowoffload_tg_ineligible_no_side_effects_witness :
    ineligiblePre icmpInput = true ∧
    flowoffload_tg icmpInput = tgPass icmpInput ∧
    (flowoffload_tg icmpInput).ct = icmpInput.ct :=
  ⟨by decide,
   (flowoffload_tg_ineligible_no_side_effects icmpInput (by decide)).1,
   (flowoffload_tg_ineligible_no_side_effects icmpInput (by decide)).2.1⟩

/-! ## Claim C6 -/

/-- C6: ensure-hook idempotence.  Starting from a table with no hook for
    device `d`: the first call (with the allocation succeeding) inserts a
    single pending, unused hook for `d` and schedules the sweep task
    immediately; a second call for the same pair finds that hook, marks it
    used, allocates nothing and leaves exactly one hook for `d`. -/
theorem check_device_idempotent (hooks : List XtHook) (d : Nat) (alloc2 : Bool)
    (h : ∀ x ∈ hooks, x.dev ≠ d) :
    (xt_flowoffload_check_device hooks (some d) true).2 = true ∧
    flow_offload_lookup_hook (xt_flowoffload_check_device hooks (some d) true).1 d
      = some ⟨d, false, false⟩ ∧
    ((xt_flowoffload_check_device
        (xt_flowoffload_check_device hooks (some d) true).1 (some d) alloc2).1.filter
        (fun x => x.dev = d)).length = 1 ∧
    flow_offload_lookup_hook
        (xt_flowoffload_check_device
          (xt_flowoffload_check_device hooks (some d) true).1 (some d) alloc2).1 d
      = some ⟨d, false, true⟩ ∧
    (xt_flowoffload_check_device
        (xt_flowoffload_check_device hooks (some d) true).1 (some d) alloc2).2 = false := by
  have hfind : flow_offload_lookup_hook hooks d = none := by
    apply List.find?_eq_none.mpr
    intro x hx
    simpa using h x hx
  have hfilter : hooks.filter (fun x => x.dev = d) = [] := by
    apply List.filter_eq_nil.mpr
    intro x hx
    simpa using h x hx
  have h1 : xt_flowoffload_check_device hooks (some d) true
      = (⟨d, false, false⟩ :: hooks, true) := by
    simp [xt_flowoffload_check_device, hfind, xt_flowoffload_create_hook]
  have h2 : xt_flowoffload_check_device (XtHook.mk d false false :: hooks) (some d) alloc2
      = (⟨d, false, true⟩ :: hooks, false) := by
    simp [xt_flowoffload_check_device, flow_offload_lookup_hook, List.find?_cons,
      markUsedFirst]
  rw [h1]
  refine ⟨rfl, ?_, ?_, ?_, ?_⟩
  · simp [flow_offload_lookup_hook, List.find?_cons]
  · rw [h2]; simp [hfilter]
  · rw [h2]; simp [flow_offload_lookup_hook, List.find?_cons]
  · rw [h2]

/-- Witness for C6 at a concrete table. -/
theorem check_device_idempotent_witness :
    (xt_flowoffload_check_device [⟨9, true, true⟩] (some 5) true).2 = true ∧
    flow_offload_lookup_hook (xt_flowoffload_check_device [⟨9, true, true⟩] (some 5) true).1 5
      = some ⟨5, false, false⟩ ∧
    ((xt_flowoffload_check_device
        (xt_flowoffload_check_device [⟨9, true, true⟩] (some 5) true).1 (some 5) false).1.filter
        (fun x => x.dev = 5)).length = 1 ∧
    flow_offload_lookup_hook
        (xt_flowoffload_check_device
          (xt_flowoffload_check_device [⟨9, true, true⟩] (some 5) true).1 (some 5) false).1 5
      = some ⟨5, false, true⟩ ∧
    (xt_flowoffload_check_device
        (xt_flowoffload_check_device [⟨9, true, true⟩] (some 5) true).1 (some 5) false).2
      = false :=
  check_device_idempotent [⟨9, true, true⟩] 5 false (by decide)

/-! ## Claim C7 -/

/-- C7: sweep convergence.  From a table holding only freshly created
    (pending, unused) hooks, with an empty flow store and no further
    ensure-hook calls, a single sweep cycle already empties the hook
    collection and the task goes idle: the cycle installs every pending hook,
    clears the `used` flags, finds no live flow, and its own reap phase then
    removes every installed unused hook — so the hook count is zero within
    one cycle (a fortiori within the claimed bound of two), and every later
    cycle trivially keeps it at zero. -/
theorem hook_work_sweep_converges (hooks : List XtHook)
    (h : ∀ x ∈ hooks, x.registered = false ∧ x.used = false) :
    xt_flowoffload_hook_work hooks [] 0 = ([], false) := by
  unfold xt_flowoffload_hook_work
  rw [if_neg (by simp)]
  have key : ∀ x ∈ sweepMarked hooks [], (x.used || !x.registered) = false := by
    intro x hx
    simp only [sweepMarked, xt_flowoffload_register_hooks, List.foldl_nil, List.map_map,
      List.mem_map] at hx
    obtain ⟨b, _hb, rfl⟩ := hx
    rfl
  simp only [xt_flowoffload_cleanup_hooks, Prod.mk.injEq]
  constructor
  · apply List.filter_eq_nil.mpr
    intro x hx
    simp [key x hx]
  · rw [Bool.eq_false_iff]
    intro hany
    obtain ⟨x, hx, hp⟩ := List.any_eq_true.mp hany
    rw [key x hx] at hp
    exact Bool.false_ne_true hp

/-- Witness for C7: two fresh hooks are reaped within one cycle. -/
theorem hook_work_sweep_converges_witness :
    xt_flowoffload_hook_work [⟨1, false, false⟩, ⟨2, false, false⟩] [] 0 = ([], false) :=
  hook_work_sweep_converges _ (by decide)

/-! ## Claim C8 -/

/-- C8 counterexample: the claim "when the iteration signals 'more work
    remains' the task is rescheduled even if no hook remained active" is
    false on the code.  Concrete input: one registered, unused hook and an
    iteration returning `-EAGAIN` with no flow visited.  `-EAGAIN` passes
    the `err && err != -EAGAIN` test, so the reap phase runs, removes the
    hook, reports no active hook — and the cycle returns without
    rescheduling. -/
theorem hook_work_retry_idle_cex :
    (xt_flowoffload_hook_work [⟨1, false, false⟩] [] (-11)).2 = false ∧
    (-11 : Int) = -EAGAIN ∧
    (xt_flowoffload_hook_work [⟨1, false, false⟩] [] (-11)).1 = [] := by
  decide

/-- C8 (amended): a sweep cycle reschedules itself iff a non-retry
    iteration error aborted the reap phase, or the reap phase ran (the
    iteration returned success or retry) and some hook remained in the
    collection afterwards.  A retry signal alone, with no hook surviving
    the reap, leaves the task idle. -/
theorem hook_work_reschedule_iff (hooks : List XtHook) (flows : List Flow) (err : Int) :
    (xt_flowoffload_hook_work hooks flows err).2 = true ↔
      ((err ≠ 0 ∧ err ≠ -EAGAIN) ∨
       ((err = 0 ∨ err = -EAGAIN) ∧ (xt_flowoffload_hook_work hooks flows err).1 ≠ [])) := by
  unfold xt_flowoffload_hook_work
  by_cases hc : err ≠ 0 ∧ err ≠ -EAGAIN
  · rw [if_pos hc]
    simp [hc]
  · rw [if_neg hc]
    have hor : err = 0 ∨ err = -EAGAIN := by tauto
    simp only [xt_flowoffload_cleanup_hooks, hor, hc, false_or, true_and]
    constructor
    · intro hany hnil
      obtain ⟨x, hx, hp⟩ := List.any_eq_true.mp hany
      have := List.filter_eq_nil.mp hnil x hx
      simp_all
    · intro hne
      obtain ⟨x, hx⟩ := List.exists_mem_of_ne_nil _ hne
      have hx' := List.mem_filter.mp hx
      exact List.any_eq_true.mpr ⟨x, hx'.1, hx'.2⟩

/-! ## Claim C9 -/

theorem removeFirstDev_filter_pos (l : List XtHook) (d : Nat) :
    (removeFirstDev l d).filter (fun x => x.dev = d) =
      (l.filter (fun x => x.dev = d)).drop 1 := by
  induction l with
  | nil => rfl
  | cons a t ih =>
    by_cases hd : a.dev = d
    · simp [removeFirstDev, hd]
    · simp [removeFirstDev, hd, ih]

theorem removeFirstDev_filter_ne (l : List XtHook) (d : Nat) :
    (removeFirstDev l d).filter (fun x => x.dev ≠ d) =
      l.filter (fun x => x.dev ≠ d) := by
  induction l with
  | nil => rfl
  | cons a t ih =>
    by_cases hd : a.dev = d
    · simp [removeFirstDev, hd]
    · simp only [decide_not] at ih
      simp [removeFirstDev, hd, ih]

/-- C9: on a device-removal notification for a device hooked in both tables,
    the observer removes the hook for that device from each table (leaving
    the other hooks untouched), unregisters and frees both removed hooks —
    the hypotheses place no constraint on their `used`/`registered` flags —
    and requests flow-table cleanup for the device, all in the one
    synchronous call. -/
theorem netdev_event_unregister_removes_hooks (t0 t1 : List XtHook) (d : Nat)
    (h0 : (t0.filter (fun x => x.dev = d)).length = 1)
    (h1 : (t1.filter (fun x => x.dev = d)).length = 1) :
    ((flow_offload_netdev_event t0 t1 NETDEV_UNREGISTER d).table0.filter
        (fun x => x.dev = d)).length = 0 ∧
    ((flow_offload_netdev_event t0 t1 NETDEV_UNREGISTER d).table1.filter
        (fun x => x.dev = d)).length = 0 ∧
    (flow_offload_netdev_event t0 t1 NETDEV_UNREGISTER d).unregistered.length = 2 ∧
    ((flow_offload_netdev_event t0 t1 NETDEV_UNREGISTER d).unregistered.all
        (fun x => x.dev = d)) = true ∧
    (flow_offload_netdev_event t0 t1 NETDEV_UNREGISTER d).cleanupDev = some d ∧
    (flow_offload_netdev_event t0 t1 NETDEV_UNREGISTER d).table0.filter
        (fun x => x.dev ≠ d) = t0.filter (fun x => x.dev ≠ d) ∧
    (flow_offload_netdev_event t0 t1 NETDEV_UNREGISTER d).table1.filter
        (fun x => x.dev ≠ d) = t1.filter (fun x => x.dev ≠ d) := by
  have mem_of_count : ∀ l : List XtHook, (l.filter (fun x => x.dev = d)).length = 1 →
      ∃ y, flow_offload_lookup_hook l d = some y := by
    intro l hl
    have hne : l.filter (fun x => x.dev = d) ≠ [] := by
      intro hnil; rw [hnil] at hl; simp at hl
    obtain ⟨x, hx⟩ := List.exists_mem_of_ne_nil _ hne
    have hx' := List.mem_filter.mp hx
    have : (flow_offload_lookup_hook l d).isSome := by
      rw [flow_offload_lookup_hook, List.find?_isSome]
      exact ⟨x, hx'.1, hx'.2⟩
    exact Option.isSome_iff_exists.mp this
  obtain ⟨y0, hy0⟩ := mem_of_count t0 h0
  obtain ⟨y1, hy1⟩ := mem_of_count t1 h1
  have hy0d : y0.dev = d := by
    have hfind : t0.find? (fun x => x.dev = d) = some y0 := by
      simpa [flow_offload_lookup_hook] using hy0
    simpa using List.find?_some hfind
  have hy1d : y1.dev = d := by
    have hfind : t1.find? (fun x => x.dev = d) = some y1 := by
      simpa [flow_offload_lookup_hook] using hy1
    simpa using List.find?_some hfind
  have hev : flow_offload_netdev_event t0 t1 NETDEV_UNREGISTER d =
      ⟨removeFirstDev t0 d, removeFirstDev t1 d, [y0, y1], some d⟩ := by
    simp [flow_offload_netdev_event, hy0, hy1]
  rw [hev]
  refine ⟨?_, ?_, rfl, ?_, rfl, ?_, ?_⟩
  · simp [removeFirstDev_filter_pos, h0]
  · simp [removeFirstDev_filter_pos, h1]
  · simp [hy0d, hy1d]
  · exact removeFirstDev_filter_ne t0 d
  · exact removeFirstDev_filter_ne t1 d

/-- Witness for C9: one installed-used hook in table 0 and one pending-unused
    hook in table 1 for the same device (flags deliberately different). -/
theorem netdev_event_unregister_removes_hooks_witness :
    ((flow_offload_netdev_event [⟨3, true, true⟩] [⟨3, false, false⟩] NETDEV_UNREGISTER 3).table0.filter
        (fun x => x.dev = 3)).length = 0 ∧
    ((flow_offload_netdev_event [⟨3, true, true⟩] [⟨3, false, false⟩] NETDEV_UNREGISTER 3).table1.filter
        (fun x => x.dev = 3)).length = 0 ∧
    (flow_offload_netdev_event [⟨3, true, true⟩] [⟨3, false, false⟩] NETDEV_UNREGISTER 3).unregistered.length = 2 ∧
    ((flow_offload_netdev_event [⟨3, true, true⟩] [⟨3, false, false⟩] NETDEV_UNREGISTER 3).unregistered.all
        (fun x => x.dev = 3)) = true ∧
    (flow_offload_netdev_event [⟨3, true, true⟩] [⟨3, false, false⟩] NETDEV_UNREGISTER 3).cleanupDev = some 3 ∧
    (flow_offload_netdev_event [⟨3, true, true⟩] [⟨3, false, false⟩] NETDEV_UNREGISTER 3).table0.filter
        (fun x => x.dev ≠ 3) = List.filter (fun x => x.dev ≠ 3) [⟨3, true, true⟩] ∧
    (flow_offload_netdev_event [⟨3, true, true⟩] [⟨3, false, false⟩] NETDEV_UNREGISTER 3).table1.filter
        (fun x => x.dev ≠ 3) = List.filter (fun x => x.dev ≠ 3) [⟨3, false, false⟩] :=
  netdev_event_unregister_removes_hooks [⟨3, true, true⟩] [⟨3, false, false⟩] 3
    (by decide) (by decide)

/-! ## Claims C4 and C5: the forwarding-path walk -/

theorem numEncaps_upd_dir (r : NfFlowRoute) (dir : Dir) (f : RouteTuple → RouteTuple) :
    numEncaps (updTuple r dir f) (!dir) = numEncaps r (!dir) := by
  simp [numEncaps, updTuple_other _ _ _ _ (bool_not_ne dir)]

theorem numEncaps_updTuple_preserved (r : NfFlowRoute) (d d' : Dir)
    (f : RouteTuple → RouteTuple)
    (hf : ∀ t, ((f t).tin).num_encaps = t.tin.num_encaps) :
    numEncaps (updTuple r d f) d' = numEncaps r d' := by
  by_cases hdd : d' = d
  · subst hdd; simp [numEncaps, hf]
  · simp [numEncaps, updTuple_other _ _ _ _ hdd]

theorem pathStepEther_encaps (dir : Dir) (dev : Option NetDev) (r : NfFlowRoute) :
    numEncaps (pathStepEther dir dev r) (!dir) = numEncaps r (!dir) := by
  unfold pathStepEther
  split_ifs <;> simp [numEncaps_upd_dir]

/-- `numEncaps` after updating the same direction's tuple. -/
theorem numEncaps_upd_same (r : NfFlowRoute) (d : Dir) (f : RouteTuple → RouteTuple) :
    numEncaps (updTuple r d f) d = ((f (r.t d)).tin).num_encaps := by
  simp [numEncaps]

/-- One loop iteration keeps the opposite direction's encapsulation count at
    or below the maximum: a push is guarded by the depth test (and by the
    sentinel test), and the other arms only keep or decrease the count. -/
theorem pathStep_encap_le (s : PathStack) (dir : Dir) (i : Nat) (r : NfFlowRoute)
    (dev : Option NetDev) (h : numEncaps r (!dir) ≤ NF_FLOW_TABLE_ENCAP_MAX) :
    numEncaps (pathStep s dir i r dev).1 (!dir) ≤ NF_FLOW_TABLE_ENCAP_MAX := by
  have hx : ((pathStepEther dir (s.path i).dev r).t (!dir)).tin.num_encaps
      = ((r.t (!dir)).tin).num_encaps := pathStepEther_encaps dir (s.path i).dev r
  unfold pathStep
  rcases hty : (s.path i).type with _ | ⟨eid, epr⟩ | ⟨eid, epr, ehd⟩ | ⟨vm, vid, vpr⟩ | _
  · simpa [hty, pathStepEther_encaps] using h
  · simp only [hty]
    by_cases hg : NF_FLOW_TABLE_ENCAP_MAX ≤ numEncaps r (!dir) ∨ i = s.num_paths
    · simpa [hg, pathStepEther_encaps] using h
    · rw [if_neg hg]
      try dsimp only
      rw [numEncaps_upd_same]
      try dsimp only
      rw [hx]
      have hg1 : ¬ NF_FLOW_TABLE_ENCAP_MAX ≤ numEncaps r (!dir) := (not_or.mp hg).1
      simp only [numEncaps] at h hg1
      omega
  · simp only [hty]
    by_cases hg : NF_FLOW_TABLE_ENCAP_MAX ≤ numEncaps r (!dir) ∨ i = s.num_paths
    · simpa [hg, pathStepEther_encaps] using h
    · rw [if_neg hg]
      try dsimp only
      rw [numEncaps_upd_dir, numEncaps_upd_same]
      try dsimp only
      rw [hx]
      have hg1 : ¬ NF_FLOW_TABLE_ENCAP_MAX ≤ numEncaps r (!dir) := (not_or.mp hg).1
      simp only [numEncaps] at h hg1
      omega
  · rcases vm with _ | _ | _ | _
    · simp only [hty]
      by_cases hg : NF_FLOW_TABLE_ENCAP_MAX ≤ numEncaps r (!dir) ∨ i = s.num_paths
      · simpa [hg, pathStepEther_encaps] using h
      · rw [if_neg hg]
        try dsimp only
        rw [numEncaps_upd_same]
        try dsimp only
        rw [hx]
        have hg1 : ¬ NF_FLOW_TABLE_ENCAP_MAX ≤ numEncaps r (!dir) := (not_or.mp hg).1
        simp only [numEncaps] at h hg1
        omega
    · simp only [hty]
      try dsimp only
      rw [numEncaps_upd_same]
      try dsimp only
      rw [hx]
      simp only [numEncaps] at h
      omega
    · simp only [hty]
      try dsimp only
      rw [numEncaps_upd_same]
      try dsimp only
      rw [hx]
      simpa [numEncaps] using h
    · simpa [hty, pathStepEther_encaps] using h
  · simpa [hty, pathStepEther_encaps] using h

/-- The walk never raises the count above the maximum. -/
theorem walkSegs_encap_le (s : PathStack) (dir : Dir) (l : List Nat) (r : NfFlowRoute)
    (dev : Option NetDev) (h : numEncaps r (!dir) ≤ NF_FLOW_TABLE_ENCAP_MAX) :
    numEncaps (walkSegs s dir l r dev).1 (!dir) ≤ NF_FLOW_TABLE_ENCAP_MAX := by
  induction l generalizing r dev with
  | nil => simpa [walkSegs] using h
  | cons a t ih =>
    simp only [walkSegs]
    by_cases hl : (pathStep s dir a r dev).2.2
    · simpa [hl] using pathStep_encap_le s dir a r dev h
    · simpa [hl] using ih _ _ (pathStep_encap_le s dir a r dev h)

/-- Both halves of the ghost trace bound: every index the loop body reads is
    in the index list, and there are at most as many iterations as indices. -/
theorem walkSegs_trace_subset (s : PathStack) (dir : Dir) (l : List Nat)
    (r : NfFlowRoute) (dev : Option NetDev) :
    ∀ i ∈ (walkSegs s dir l r dev).2.2, i ∈ l := by
  induction l generalizing r dev with
  | nil => intro i hi; simp [walkSegs] at hi
  | cons a t ih =>
    intro i hi
    simp only [walkSegs] at hi
    by_cases hl : (pathStep s dir a r dev).2.2
    · rw [if_pos hl] at hi
      simp only [List.mem_singleton] at hi
      simp [hi]
    · rw [if_neg hl] at hi
      simp only [List.mem_cons] at hi
      rcases hi with rfl | hi
      · simp
      · exact List.mem_cons_of_mem _ (ih _ _ _ hi)

theorem walkSegs_trace_length (s : PathStack) (dir : Dir) (l : List Nat)
    (r : NfFlowRoute) (dev : Option NetDev) :
    (walkSegs s dir l r dev).2.2.length ≤ l.length := by
  induction l generalizing r dev with
  | nil => simp [walkSegs]
  | cons a t ih =>
    simp only [walkSegs]
    by_cases hl : (pathStep s dir a r dev).2.2
    · simp [hl]
    · simpa [hl] using Nat.succ_le_succ (ih (pathStep s dir a r dev).1
        (pathStep s dir a r dev).2.1)

/-- At the sentinel iteration (`i = stack.num_paths`) no encapsulation layer
    is pushed: the push arms all test `i == stack.num_paths` and set `last`
    instead, and the remaining arms keep or decrease the count. -/
theorem pathStep_sentinel_no_add (s : PathStack) (dir : Dir) (r : NfFlowRoute)
    (dev : Option NetDev) :
    numEncaps (pathStep s dir s.num_paths r dev).1 (!dir) ≤ numEncaps r (!dir) := by
  have hx : ((pathStepEther dir (s.path s.num_paths).dev r).t (!dir)).tin.num_encaps
      = ((r.t (!dir)).tin).num_encaps := pathStepEther_encaps dir (s.path s.num_paths).dev r
  unfold pathStep
  rcases hty : (s.path s.num_paths).type with _ | ⟨eid, epr⟩ | ⟨eid, epr, ehd⟩ | ⟨vm, vid, vpr⟩ | _
  · simp [hty, pathStepEther_encaps]
  · simp [hty, pathStepEther_encaps]
  · simp [hty, pathStepEther_encaps]
  · rcases vm with _ | _ | _ | _
    · simp [hty, pathStepEther_encaps]
    · simp only [hty]
      try dsimp only
      rw [numEncaps_upd_same]
      try dsimp only
      rw [hx]
      simp only [numEncaps]
      omega
    · simp only [hty]
      try dsimp only
      rw [numEncaps_upd_same]
      try dsimp only
      rw [hx]
      simp [numEncaps]
    · simp [hty, pathStepEther_encaps]
  · simp [hty, pathStepEther_encaps]

/-- Whole-resolver bound: every write `xt_flowoffload_route_check_path`
    performs outside the walk leaves the encapsulation count unchanged, and
    the walk itself preserves the bound. -/
theorem check_path_encap_le (env : CheckPathEnv) (r : NfFlowRoute) (dir : Dir)
    (dev : Option NetDev) (h : numEncaps r (!dir) ≤ NF_FLOW_TABLE_ENCAP_MAX) :
    numEncaps (xt_flowoffload_route_check_path env r dir dev).1 (!dir)
      ≤ NF_FLOW_TABLE_ENCAP_MAX := by
  obtain ⟨neigh, fill⟩ := env
  unfold xt_flowoffload_route_check_path
  cases neigh <;> cases fill <;> dsimp only <;> split_ifs
  all_goals (
    try dsimp only
    try simp [numEncaps, updTuple_t, bool_not_ne]
    try exact h)
  all_goals (
    apply walkSegs_encap_le
    try simp [numEncaps, updTuple_t, bool_not_ne]
    exact h)

/-- C5: for every forwarding-path stack — including stacks with more
    segments than `NF_FLOW_TABLE_ENCAP_MAX` — the resolver keeps the
    opposite direction's ingress encapsulation count at most the maximum:
    the whole resolution preserves the bound, every single walk step
    preserves it (so it holds at every step of the walk), and the walk
    terminates, performing at most `num_paths + 1` iterations. -/
theorem check_path_encap_bound (env : CheckPathEnv) (r : NfFlowRoute) (dir : Dir)
    (dev : Option NetDev) (s : PathStack) (i : Nat) (r2 : NfFlowRoute)
    (dev2 : Option NetDev)
    (h1 : numEncaps r (!dir) ≤ NF_FLOW_TABLE_ENCAP_MAX)
    (h2 : numEncaps r2 (!dir) ≤ NF_FLOW_TABLE_ENCAP_MAX) :
    numEncaps (xt_flowoffload_route_check_path env r dir dev).1 (!dir)
        ≤ NF_FLOW_TABLE_ENCAP_MAX ∧
    numEncaps (pathStep s dir i r2 dev2).1 (!dir) ≤ NF_FLOW_TABLE_ENCAP_MAX ∧
    (walkSegs s dir (List.range (s.num_paths + 1)) r2 dev2).2.2.length
        ≤ s.num_paths + 1 :=
  ⟨check_path_encap_le env r dir dev h1,
   pathStep_encap_le s dir i r2 dev2 h2,
   by simpa using walkSegs_trace_length s dir (List.range (s.num_paths + 1)) r2 dev2⟩

/-- A forwarding-path stack of five VLAN-push segments — more than the
    maximum encapsulation depth. -/
def vlanStack : PathStack :=
  ⟨5, fun i => ⟨SegType.vlan (40 + i) 0x8100, some (ethDev 10)⟩⟩

/-- A resolver environment that reaches the walk over `vlanStack`. -/
def vlanEnv : CheckPathEnv := ⟨some ⟨true, 77⟩, some vlanStack⟩

/-- Witness for C5 on the five-VLAN stack. -/
theorem check_path_encap_bound_witness :
    numEncaps (xt_flowoffload_route_check_path vlanEnv emptyRoute false none).1 (!false)
        ≤ NF_FLOW_TABLE_ENCAP_MAX ∧
    numEncaps (pathStep vlanStack false 2 emptyRoute none).1 (!false)
        ≤ NF_FLOW_TABLE_ENCAP_MAX ∧
    (walkSegs vlanStack false (List.range (vlanStack.num_paths + 1)) emptyRoute none).2.2.length
        ≤ vlanStack.num_paths + 1 :=
  check_path_encap_bound vlanEnv emptyRoute false none vlanStack 2 emptyRoute none
    (by decide) (by decide)

/-- C4 (amended): the walk's loop bound is inclusive (`i <= num_paths`), so
    for stacks with fewer segments than the array capacity the sentinel
    access `path[num_paths]` is still inside the fixed-size segment array;
    every index the loop body reads is at most `num_paths`; the sentinel
    iteration adds no encapsulation layer; and the walk performs at most
    `num_paths + 1` iterations. -/
theorem walk_sentinel_bounds (s : PathStack) (dir : Dir) (r : NfFlowRoute)
    (dev : Option NetDev) (i : Nat)
    (hcap : s.num_paths < NET_DEVICE_PATH_STACK_MAX)
    (hi : i ∈ (walkSegs s dir (List.range (s.num_paths + 1)) r dev).2.2) :
    i ≤ s.num_paths ∧
    segAccessInBounds s (sentinelIndex s) ∧
    numEncaps (pathStep s dir (sentinelIndex s) r dev).1 (!dir) ≤ numEncaps r (!dir) ∧
    (walkSegs s dir (List.range (s.num_paths + 1)) r dev).2.2.length
        ≤ s.num_paths + 1 := by
  refine ⟨?_, hcap, pathStep_sentinel_no_add s dir r dev, ?_⟩
  · have hmem := walkSegs_trace_subset s dir (List.range (s.num_paths + 1)) r dev i hi
    exact Nat.lt_succ_iff.mp (List.mem_range.mp hmem)
  · simpa using walkSegs_trace_length s dir (List.range (s.num_paths + 1)) r dev

/-- A two-segment transparent-bridge stack (the walk runs to its sentinel). -/
def smallStack : PathStack :=
  ⟨2, fun _ => ⟨SegType.bridge BrVlanMode.keep 1 0x8100, some (ethDev 11)⟩⟩

/-- Witness for the amended C4 on a concrete stack whose walk reaches the
    sentinel index. -/
theorem walk_sentinel_bounds_witness :
    (2 : Nat) ≤ smallStack.num_paths ∧
    segAccessInBounds smallStack (sentinelIndex smallStack) ∧
    numEncaps (pathStep smallStack false (sentinelIndex smallStack) emptyRoute none).1 (!false)
        ≤ numEncaps emptyRoute (!false) ∧
    (walkSegs smallStack false (List.range (smallStack.num_paths + 1)) emptyRoute none).2.2.length
        ≤ smallStack.num_paths + 1 :=
  walk_sentinel_bounds smallStack false emptyRoute none 2 (by decide) (by decide)

/-- A full stack: as many segments as the fixed array holds
    (`NET_DEVICE_PATH_STACK_MAX`), all transparent bridge hops. -/
def fullStack : PathStack :=
  ⟨5, fun _ => ⟨SegType.bridge BrVlanMode.keep 1 0x8100, some (ethDev 11)⟩⟩

/-- C4 counterexample: the claim "for every path stack this sentinel access
    stays within the fixed-size segment array" fails at the boundary.  For a
    well-formed stack whose `num_paths` equals the array capacity (five
    transparent bridge segments; such stacks are exactly what a five-layer
    topology produces), the walk really does read index `num_paths` — it
    appears in the ghost trace — and that index is not within the
    five-element array. -/
theorem walk_sentinel_out_of_bounds_cex :
    0 < fullStack.num_paths ∧
    fullStack.num_paths ≤ NET_DEVICE_PATH_STACK_MAX ∧
    sentinelIndex fullStack ∈
      (walkSegs fullStack false (List.range (fullStack.num_paths + 1)) emptyRoute none).2.2 ∧
    ¬ segAccessInBounds fullStack (sentinelIndex fullStack) := by
  decide

end XtFlowOffload
